import Mathlib

/-!
Shallow embedding of the user-management API of this repository: the
pydantic schemas in app/schemas/user_schemas.py and the route handlers in
app/routers/user_routes.py.  Collaborators that the routers call but whose
source is not part of the repository snapshot (UserService, the JWT
service, the require_role dependency, pagination link generation) are
modelled from the specification; each such definition says so in its doc
comment.  In user_schemas.py the classes UserBase and UserUpdate are each
defined twice; the later definition shadows the earlier one, so the
"effective" schema is always the second definition — the one the routers
import.
-/

/-- The role enumeration of user_schemas.py, lines 12-16
(class UserRole(str, Enum)). -/
inductive UserRole where
  | ANONYMOUS
  | AUTHENTICATED
  | MANAGER
  | ADMIN
deriving DecidableEq, Repr

/-- Coercion of a raw string to a member of the role enumeration, as pydantic
performs when validating a UserRole-typed field: exactly the four member
values are accepted. -/
def UserRole.fromString : String → Option UserRole
  | "ANONYMOUS" => some .ANONYMOUS
  | "AUTHENTICATED" => some .AUTHENTICATED
  | "MANAGER" => some .MANAGER
  | "ADMIN" => some .ADMIN
  | _ => none

/-- Whether a raw role string is a member of the fixed role enumeration. -/
def roleInEnum (s : String) : Bool :=
  (UserRole.fromString s).isSome

/-- The regex character class [A-Za-z0-9_-] (equivalently [\w-] over ASCII),
used by the nickname patterns of the effective UserBase, of UserCreate and
of UserResponse. -/
def isWordOrHyphenChar (c : Char) : Bool :=
  c.isAlphanum || c == '_' || c == '-'

/-- The regex character class [A-Za-z0-9_], used by the nickname pattern of
the effective UserUpdate. -/
def isWordChar (c : Char) : Bool :=
  c.isAlphanum || c == '_'

/-- Full-string match against ^[A-Za-z0-9_-]+$ — the nickname pattern of the
effective UserBase (user_schemas.py line 78, inherited by UserCreate) and of
UserResponse (line 60). -/
def matchesCreateNickname (s : String) : Bool :=
  !s.data.isEmpty && s.data.all isWordOrHyphenChar

/-- Full-string match against ^[A-Za-z0-9_]+$ — the nickname pattern of the
effective UserUpdate (user_schemas.py line 90); no hyphen in the class. -/
def matchesUpdateNickname (s : String) : Bool :=
  !s.data.isEmpty && s.data.all isWordChar

/-- Validity of a present nickname under the effective UserBase/UserCreate
and UserResponse constraint: min_length 3 and the pattern with hyphen. -/
def validCreateNickname (s : String) : Bool :=
  decide (3 ≤ s.length) && matchesCreateNickname s

/-- Validity of a present nickname under the effective UserUpdate constraint:
min_length 3 and the pattern without hyphen. -/
def validUpdateNickname (s : String) : Bool :=
  decide (3 ≤ s.length) && matchesUpdateNickname s

/-- Abstraction of pydantic HttpUrl parsing: an http or https URL with a
nonempty remainder after the scheme.  No claim depends on finer URL
structure. -/
def isHttpUrl (s : String) : Bool :=
  (s.startsWith "http://" && decide (7 < s.length)) ||
  (s.startsWith "https://" && decide (8 < s.length))

/-- Abstraction of pydantic EmailStr: exactly one @ separating a nonempty
local part from a nonempty domain.  No claim depends on finer email
structure. -/
def looksLikeEmail (s : String) : Bool :=
  s.data.count '@' == 1 && s.data.head? != some '@' && s.data.getLast? != some '@'

/-- The fields of the effective UserUpdate schema (the second class of that
name in user_schemas.py, lines 89-96, which shadows the first and is the one
imported by user_routes.py).  All fields are optional and default to None. -/
structure UserUpdateInput where
  nickname : Option String := none
  first_name : Option String := none
  last_name : Option String := none
  bio : Option String := none
  profile_picture_url : Option String := none
  linkedin_profile_url : Option String := none
  github_profile_url : Option String := none
deriving DecidableEq, Repr

/-- Field validation of the effective UserUpdate: a present nickname must
satisfy constr(min_length=3, pattern=caret [A-Za-z0-9_]+ dollar) and each
present URL field must parse as HttpUrl.  The class declares no root
validator: the second UserUpdate definition does not repeat the
check_at_least_one_value validator of the first, shadowed, definition. -/
def UserUpdate.validate (i : UserUpdateInput) : Except String UserUpdateInput :=
  if i.nickname.any (fun n => !validUpdateNickname n) then
    Except.error "nickname: string should match pattern"
  else if i.profile_picture_url.any (fun u => !isHttpUrl u) then
    Except.error "profile_picture_url: URL input should be a valid URL"
  else if i.linkedin_profile_url.any (fun u => !isHttpUrl u) then
    Except.error "linkedin_profile_url: URL input should be a valid URL"
  else if i.github_profile_url.any (fun u => !isHttpUrl u) then
    Except.error "github_profile_url: URL input should be a valid URL"
  else
    Except.ok i

/-- Python truthiness of an optional string value, as the test
any(values.values()) sees it: None and the empty string are falsy. -/
def pyTruthy : Option String → Bool
  | none => false
  | some s => !s.isEmpty

/-- The check_at_least_one_value root validator of the first, shadowed,
UserUpdate definition (user_schemas.py lines 51-55): raise unless
any(values.values()) holds over the raw input values. -/
def check_at_least_one_value (values : List (Option String)) :
    Except String (List (Option String)) :=
  if values.any pyTruthy then Except.ok values
  else Except.error "At least one field must be provided for update"

/-- The raw values of an update request body in field order, with the
optional email field that the first UserUpdate definition adds in front. -/
def updateBodyValues (email : Option String) (i : UserUpdateInput) :
    List (Option String) :=
  [email, i.nickname, i.first_name, i.last_name, i.bio,
   i.profile_picture_url, i.linkedin_profile_url, i.github_profile_url]

/-- An update request body that sets no fields. -/
def emptyUserUpdate : UserUpdateInput := {}

/-- Claim C1 (evidence of the divergence): the update body that sets no
fields passes validation of the effective UserUpdate schema — no
ValidationError is raised and update_user proceeds — while the
check_at_least_one_value root validator of the shadowed first UserUpdate
definition, which is the behaviour the claim describes, rejects exactly this
input with the "at least one field" message. -/
theorem c1_empty_update_accepted_by_effective_schema :
    UserUpdate.validate emptyUserUpdate = Except.ok emptyUserUpdate ∧
    check_at_least_one_value (updateBodyValues none emptyUserUpdate) =
      Except.error "At least one field must be provided for update" := by
  exact ⟨rfl, rfl⟩

/-- Claim C9: nickname validity is not preserved from creation to update:
there is a nickname containing a hyphen — here test-user — that the
effective UserBase/UserCreate nickname constraint accepts and the effective
UserUpdate nickname constraint rejects, so a nickname valid at registration
cannot be resubmitted unchanged through an update. -/
theorem c9_nickname_valid_at_create_invalid_at_update :
    ∃ s : String, s.data.contains '-' = true ∧
      validCreateNickname s = true ∧ validUpdateNickname s = false := by
  refine ⟨"test-user", by decide, by decide, by decide⟩

/-- Raw attribute values of a stored user record as handed to response
construction — the object side of UserResponse.model_validate and
UserResponse.model_construct.  The role is carried as a raw string: only
validation coerces it into the UserRole enumeration.  The datetime fields
are modelled as epoch numbers. -/
structure RawUser where
  id : String
  email : String
  nickname : Option String := none
  first_name : Option String := none
  last_name : Option String := none
  bio : Option String := none
  profile_picture_url : Option String := none
  linkedin_profile_url : Option String := none
  github_profile_url : Option String := none
  role : String := "AUTHENTICATED"
  is_professional : Bool := false
  created_at : Nat := 0
  last_login_at : Nat := 0
deriving DecidableEq, Repr

/-- A UserResponse value as it exists at runtime.  The declared pydantic type
of the role field is UserRole, but model_construct stores whatever value it
is handed without coercion, so the embedded object carries the raw string. -/
structure UserResponseObj where
  id : String
  username : String
  nickname : Option String := none
  first_name : Option String := none
  last_name : Option String := none
  bio : Option String := none
  profile_picture_url : Option String := none
  linkedin_profile_url : Option String := none
  github_profile_url : Option String := none
  role : String := "AUTHENTICATED"
  is_professional : Bool := false
  created_at : Nat := 0
  last_login_at : Nat := 0
deriving DecidableEq, Repr

/-- UserResponse.model_validate: validated construction of a response from a
stored record, as used by get_user, create_user, register and list_users
(user_routes.py lines 53, 156, 187, 171).  The field constraints of
UserResponse (user_schemas.py lines 57-70) are enforced: username an email,
a present nickname matching the min_length-3 hyphen pattern, URL fields
parsed as HttpUrl, and role a member of the UserRole enumeration.  The
public username field is populated from the stored email. -/
def UserResponse.model_validate (u : RawUser) : Except String UserResponseObj :=
  if !looksLikeEmail u.email then
    Except.error "username: value is not a valid email address"
  else if u.nickname.any (fun n => !validCreateNickname n) then
    Except.error "nickname: string should match pattern"
  else if u.profile_picture_url.any (fun s => !isHttpUrl s) then
    Except.error "profile_picture_url: URL input should be a valid URL"
  else if u.linkedin_profile_url.any (fun s => !isHttpUrl s) then
    Except.error "linkedin_profile_url: URL input should be a valid URL"
  else if u.github_profile_url.any (fun s => !isHttpUrl s) then
    Except.error "github_profile_url: URL input should be a valid URL"
  else
    match UserRole.fromString u.role with
    | none => Except.error "role: input should be ANONYMOUS, AUTHENTICATED, MANAGER or ADMIN"
    | some _ =>
      Except.ok
        { id := u.id, username := u.email, nickname := u.nickname,
          first_name := u.first_name, last_name := u.last_name, bio := u.bio,
          profile_picture_url := u.profile_picture_url,
          linkedin_profile_url := u.linkedin_profile_url,
          github_profile_url := u.github_profile_url,
          role := u.role, is_professional := u.is_professional,
          created_at := u.created_at, last_login_at := u.last_login_at }

/-- UserResponse.model_construct: unvalidated construction — pydantic sets
the given values directly, with no coercion and no field checks. -/
def UserResponse.model_construct (u : RawUser) : UserResponseObj :=
  { id := u.id, username := u.email, nickname := u.nickname,
    first_name := u.first_name, last_name := u.last_name, bio := u.bio,
    profile_picture_url := u.profile_picture_url,
    linkedin_profile_url := u.linkedin_profile_url,
    github_profile_url := u.github_profile_url,
    role := u.role, is_professional := u.is_professional,
    created_at := u.created_at, last_login_at := u.last_login_at }

/-- The response construction of update_user (user_routes.py lines 79-93):
UserResponse.model_construct applied field by field to the updated record,
with the public username taken from the stored email. -/
def updateUserResponse (updated_user : RawUser) : UserResponseObj :=
  UserResponse.model_construct updated_user

/-- A stored user record whose role value lies outside the UserRole
enumeration. -/
def badRoleRawUser : RawUser :=
  { id := "123e4567-e89b-12d3-a456-426614174000",
    email := "john.doe@example.com",
    role := "SUPERUSER" }

/-- Claim C2, counterexample: update_user builds its response with
model_construct, which performs no validation.  On a stored record whose
role is SUPERUSER the construction succeeds — no ValidationError — and the
returned UserResponse carries a role outside the fixed enumeration, refuting
the claim that every construction of an account value with a role outside
the enumeration fails, in particular for update_user. -/
theorem c2_counterexample_model_construct_skips_role_validation :
    (updateUserResponse badRoleRawUser).role = "SUPERUSER" ∧
    roleInEnum (updateUserResponse badRoleRawUser).role = false := by
  exact ⟨rfl, rfl⟩

/-- Claim C2, amended: every UserResponse obtained through validated
construction (UserResponse.model_validate, used by get_user, create_user,
register and list_users) has its role in the fixed enumeration, and
validating a record whose role lies outside the enumeration fails with a
ValidationError; update_user, however, uses model_construct, which skips
this validation (see the counterexample). -/
theorem c2_validated_role_in_enum (u : RawUser) (r : UserResponseObj) :
    (UserResponse.model_validate u = Except.ok r → roleInEnum r.role = true) ∧
    (roleInEnum u.role = false →
      ∃ e, UserResponse.model_validate u = Except.error e) := by
  constructor
  · intro h
    unfold UserResponse.model_validate at h
    split at h
    · exact Except.noConfusion h
    · split at h
      · exact Except.noConfusion h
      · split at h
        · exact Except.noConfusion h
        · split at h
          · exact Except.noConfusion h
          · split at h
            · exact Except.noConfusion h
            · split at h
              · exact Except.noConfusion h
              · rename_i v heq
                cases h
                simp [roleInEnum, heq]
  · intro h
    unfold UserResponse.model_validate
    split
    · exact ⟨_, rfl⟩
    · split
      · exact ⟨_, rfl⟩
      · split
        · exact ⟨_, rfl⟩
        · split
          · exact ⟨_, rfl⟩
          · split
            · exact ⟨_, rfl⟩
            · split
              · exact ⟨_, rfl⟩
              · rename_i v heq
                unfold roleInEnum at h
                rw [heq] at h
                simp at h

/-- A stored record that passes every UserResponse field check. -/
def okRawUser : RawUser :=
  { id := "123e4567-e89b-12d3-a456-426614174000",
    email := "test@example.com" }

/-- The validated response for okRawUser. -/
def okResponse : UserResponseObj :=
  { id := "123e4567-e89b-12d3-a456-426614174000",
    username := "test@example.com" }

/-- Witness for c2_validated_role_in_enum at concrete inputs: validating
okRawUser yields a role inside the enumeration, and validating
badRoleRawUser (role SUPERUSER) yields an error. -/
theorem c2_validated_role_in_enum_witness :
    roleInEnum okResponse.role = true ∧
    (∃ e, UserResponse.model_validate badRoleRawUser = Except.error e) :=
  ⟨(c2_validated_role_in_enum okRawUser okResponse).1 (by rfl),
   (c2_validated_role_in_enum badRoleRawUser okResponse).2 (by rfl)⟩

/-- Modelled from the spec: the persisted Account record (spec section 3), as
far as the login, deletion and creation flows need it.  The ORM model and
UserService are not part of the repository snapshot. -/
structure Account where
  id : String
  email : String
  password : String
  verified : Bool := true
  locked : Bool := false
  failedAttempts : Nat := 0
  role : String := "AUTHENTICATED"
deriving DecidableEq, Repr

/-- Modelled from the spec: the persistence lookup find(predicate)
specialised to the email handle — UserService.get_by_email and the account
resolution inside login_user. -/
def findByEmail (db : List Account) (email : String) : Option Account :=
  db.find? (fun a => a.email == email)

/-- Modelled from the spec: UserService.is_account_locked — whether the
account named by the email exists and is in the Locked state.  A nonexistent
account is not locked. -/
def is_account_locked (db : List Account) (email : String) : Bool :=
  match findByEmail db email with
  | some a => a.locked
  | none => false

/-- Modelled from the spec: the Credential Verifier (spec section 4.1), a
pure, deterministic boolean match of the presented secret against the stored
credential. -/
def verifyCredential (plain stored : String) : Bool :=
  plain == stored

/-- Point update of the account carrying the given email. -/
def updateAccount (db : List Account) (email : String) (f : Account → Account) :
    List Account :=
  db.map (fun a => if a.email == email then f a else a)

/-- The externally observable outcome of the login endpoint: either a bearer
token carrying the subject and role claims that create_access_token embeds
(user_routes.py line 204), or an HTTP error with status code and detail. -/
inductive LoginOutcome where
  | token (subject : String) (role : String)
  | httpError (status : Nat) (detail : String)
deriving DecidableEq, Repr

/-- The login endpoint (user_routes.py lines 193-205) composed with the
spec-modelled UserService.login_user (spec section 4.3 login policy): the
router rejects a locked account with 400 before any credential check; a
nonexistent account, an unverified account and a wrong password all make
login_user return None and hence produce the identical 401 response; a
correct credential resets the failed-attempt counter; a wrong one increments
it, locking the account when the counter reaches the configured threshold.
Returns the observable outcome together with the resulting database state. -/
def login (threshold : Nat) (db : List Account) (username password : String) :
    LoginOutcome × List Account :=
  if is_account_locked db username then
    (LoginOutcome.httpError 400 "Account locked", db)
  else
    match findByEmail db username with
    | none => (LoginOutcome.httpError 401 "Incorrect credentials", db)
    | some a =>
      if !a.verified then
        (LoginOutcome.httpError 401 "Incorrect credentials", db)
      else if verifyCredential password a.password then
        (LoginOutcome.token a.email a.role,
          updateAccount db username (fun x => { x with failedAttempts := 0 }))
      else
        (LoginOutcome.httpError 401 "Incorrect credentials",
          updateAccount db username (fun x =>
            { x with failedAttempts := x.failedAttempts + 1,
                     locked := decide (threshold ≤ x.failedAttempts + 1) }))

/-- Claim C3: a login request naming a nonexistent email and one naming an
existing, unlocked account with a wrong password produce identical
externally observable error responses — both 401 with the same detail — so
the caller cannot distinguish no-such-account from wrong-password. -/
theorem c3_login_errors_indistinguishable
    (threshold : Nat) (db : List Account) (u1 p1 u2 p2 : String) (a : Account)
    (h1 : findByEmail db u1 = none)
    (h2 : findByEmail db u2 = some a)
    (hl : a.locked = false)
    (hp : verifyCredential p2 a.password = false) :
    (login threshold db u1 p1).1 = (login threshold db u2 p2).1 ∧
    (login threshold db u1 p1).1 =
      LoginOutcome.httpError 401 "Incorrect credentials" := by
  have hfst : (login threshold db u1 p1).1 =
      LoginOutcome.httpError 401 "Incorrect credentials" := by
    unfold login is_account_locked
    rw [h1]
    simp
  have hsnd : (login threshold db u2 p2).1 =
      LoginOutcome.httpError 401 "Incorrect credentials" := by
    unfold login is_account_locked
    rw [h2]
    simp [hl, hp]
    cases hv : a.verified <;> simp
  exact ⟨hfst.trans hsnd.symm, hfst⟩

/-- A demonstration account for the login witnesses. -/
def demoAccount : Account :=
  { id := "1", email := "bob@example.com", password := "Secure*1234" }

/-- A one-account demonstration database. -/
def demoDb : List Account := [demoAccount]

/-- Witness for c3_login_errors_indistinguishable at concrete inputs: a login
naming the absent alice@example.com and a login naming the present
bob@example.com with a wrong password return the same 401 outcome. -/
theorem c3_login_errors_indistinguishable_witness :
    (login 5 demoDb "alice@example.com" "whatever").1 =
      (login 5 demoDb "bob@example.com" "wrong-password").1 ∧
    (login 5 demoDb "alice@example.com" "whatever").1 =
      LoginOutcome.httpError 401 "Incorrect credentials" :=
  c3_login_errors_indistinguishable 5 demoDb "alice@example.com" "whatever"
    "bob@example.com" "wrong-password" demoAccount (by rfl) (by rfl) (by rfl) (by rfl)

/-- Claim C5: a login attempt against a locked account fails with 400
"Account locked" for every presented password — the correct credential
included, since the statement quantifies over all passwords — and the
database is returned unchanged: the credential check is never reached and no
further failed attempt is consumed. -/
theorem c5_locked_account_login_rejected
    (threshold : Nat) (db : List Account) (username password : String) (a : Account)
    (h : findByEmail db username = some a) (hl : a.locked = true) :
    login threshold db username password =
      (LoginOutcome.httpError 400 "Account locked", db) := by
  unfold login is_account_locked
  rw [h]
  simp [hl]

/-- A locked account holding the correct credential Secure*1234. -/
def lockedAccount : Account :=
  { id := "2", email := "carol@example.com", password := "Secure*1234",
    locked := true, failedAttempts := 5 }

/-- A one-account database whose only account is locked. -/
def lockedDb : List Account := [lockedAccount]

/-- Witness for c5_locked_account_login_rejected at concrete inputs: login
against the locked carol@example.com with the correct password Secure*1234
still returns 400 "Account locked" and leaves the database unchanged. -/
theorem c5_locked_account_login_rejected_witness :
    login 5 lockedDb "carol@example.com" "Secure*1234" =
      (LoginOutcome.httpError 400 "Account locked", lockedDb) :=
  c5_locked_account_login_rejected 5 lockedDb "carol@example.com" "Secure*1234"
    lockedAccount (by rfl) (by rfl)

/-- Modelled from the spec: a verification-purpose token (spec sections 3 and
4.2).  It embeds the target account id and carries whether its signature
verifies and whether its expiry has passed; the JWT service is not part of
the repository snapshot. -/
structure VerificationToken where
  accountId : String
  signatureValid : Bool
  expired : Bool
deriving DecidableEq, Repr

/-- The token-validation error taxonomy (spec section 7). -/
inductive TokenError where
  | InvalidSignature
  | ExpiredToken
  | TargetMismatch
deriving DecidableEq, Repr

/-- Modelled from the spec: validate for verification-purpose tokens (spec
sections 4.2 and 8): the embedded account id must equal the id in the
request path, failing with TargetMismatch otherwise regardless of signature
validity; an id-matching token must then carry a valid signature and be
unexpired. -/
def validateVerificationToken (tok : VerificationToken) (pathId : String) :
    Except TokenError String :=
  if tok.accountId != pathId then Except.error TokenError.TargetMismatch
  else if !tok.signatureValid then Except.error TokenError.InvalidSignature
  else if tok.expired then Except.error TokenError.ExpiredToken
  else Except.ok tok.accountId

/-- The verify_email endpoint (user_routes.py lines 207-214) composed with
the spec-modelled token validation: every validation failure is surfaced as
HTTP 400 "Invalid or expired token". -/
def verify_email (tok : VerificationToken) (pathId : String) :
    Except (Nat × String) String :=
  match validateVerificationToken tok pathId with
  | Except.ok _ => Except.ok "Email verified successfully"
  | Except.error _ => Except.error (400, "Invalid or expired token")

/-- Claim C4: whenever the account id embedded in the presented token differs
from the user id in the request path, validation fails with TargetMismatch —
for every combination of signature validity and expiry, since the statement
quantifies over the whole token — and the endpoint rejects the request. -/
theorem c4_target_mismatch_rejected (tok : VerificationToken) (pathId : String)
    (h : tok.accountId ≠ pathId) :
    validateVerificationToken tok pathId = Except.error TokenError.TargetMismatch ∧
    verify_email tok pathId = Except.error (400, "Invalid or expired token") := by
  have hb : (tok.accountId != pathId) = true := bne_iff_ne.mpr h
  have hv : validateVerificationToken tok pathId =
      Except.error TokenError.TargetMismatch := by
    unfold validateVerificationToken
    rw [hb]
    simp
  refine ⟨hv, ?_⟩
  unfold verify_email
  rw [hv]

/-- Witness for c4_target_mismatch_rejected at concrete inputs: a token with
a valid, unexpired signature embedding account id A presented on the path of
account id B is rejected with TargetMismatch. -/
theorem c4_target_mismatch_rejected_witness :
    validateVerificationToken
        { accountId := "A", signatureValid := true, expired := false } "B" =
      Except.error TokenError.TargetMismatch ∧
    verify_email
        { accountId := "A", signatureValid := true, expired := false } "B" =
      Except.error (400, "Invalid or expired token") :=
  c4_target_mismatch_rejected
    { accountId := "A", signatureValid := true, expired := false } "B" (by decide)

/-- Modelled from the spec: the Authorization Gate (spec section 4.4), as
implemented by the require_role dependency the routers install: the actor is
permitted exactly when its role is a member of the declared required role
set — membership, not hierarchy. -/
def authorize (actorRole : String) (requiredRoles : List String) : Bool :=
  requiredRoles.contains actorRole

/-- The required role set that delete_user declares (user_routes.py line
130): require_role(["ADMIN", "MANAGER"]). -/
def deleteRequiredRoles : List String := ["ADMIN", "MANAGER"]

/-- The authorization decision of delete_user for an actor acting on a target
user: the handler consults only the actor role through the gate — the target
record and its role are never inspected by the authorization check, which is
why the target role parameter is unused. -/
def deleteAllowed (actorRole : String) (targetRole : String) : Bool :=
  authorize actorRole deleteRequiredRoles

/-- Claim C6: authorization is decided by set membership, not role hierarchy:
an actor with role MANAGER is permitted to delete any user — one whose own
role is ADMIN included, since the decision ignores the target role — and an
actor whose role is not a member of the required set is rejected, whatever
the target. -/
theorem c6_membership_not_hierarchy (targetRole : String) :
    deleteAllowed "MANAGER" targetRole = true ∧
    (∀ actorRole : String, actorRole ∉ deleteRequiredRoles →
      deleteAllowed actorRole targetRole = false) := by
  constructor
  · rfl
  · intro r hr
    have hc : deleteRequiredRoles.contains r = false := by
      cases hcc : deleteRequiredRoles.contains r
      · rfl
      · exact absurd (List.mem_of_elem_eq_true hcc) hr
    simpa [deleteAllowed, authorize] using hc

/-- Witness for c6_membership_not_hierarchy at concrete inputs: a MANAGER
actor may delete an ADMIN user, while an AUTHENTICATED actor — not a member
of the required set — is rejected. -/
theorem c6_membership_not_hierarchy_witness :
    deleteAllowed "MANAGER" "ADMIN" = true ∧
    deleteAllowed "AUTHENTICATED" "ADMIN" = false :=
  ⟨(c6_membership_not_hierarchy "ADMIN").1,
   (c6_membership_not_hierarchy "ADMIN").2 "AUTHENTICATED" (by decide)⟩

/-- The outcome of an account-creation request: the created record, or an
HTTP error with status code and detail. -/
inductive CreateOutcome where
  | created (user : Account)
  | httpError (status : Nat) (detail : String)
deriving DecidableEq, Repr

/-- Modelled from the spec: UserService.create backed by the persistence
save; inserting an account with a fresh email always succeeds — an internal
persistence failure is out of scope (spec section 6). -/
def insertAccount (db : List Account) (a : Account) : List Account :=
  db ++ [a]

/-- The create_user endpoint (user_routes.py lines 142-156): look the email
up with get_by_email; an existing account makes the request fail with 400
"Username already exists" and the database is left unchanged; otherwise the
account is created. -/
def create_user (db : List Account) (new : Account) : CreateOutcome × List Account :=
  match findByEmail db new.email with
  | some _ => (CreateOutcome.httpError 400 "Username already exists", db)
  | none => (CreateOutcome.created new, insertAccount db new)

/-- The register endpoint (user_routes.py lines 179-187) composed with the
spec-modelled UserService.register_user, which fails exactly on a duplicate
email (spec section 7, DuplicateEmail); the router surfaces that failure as
400 "Username already exists". -/
def register (db : List Account) (new : Account) : CreateOutcome × List Account :=
  match findByEmail db new.email with
  | some _ => (CreateOutcome.httpError 400 "Username already exists", db)
  | none => (CreateOutcome.created new, insertAccount db new)

/-- Claim C7: a create_user or register request whose email already belongs
to an existing account fails with HTTP 400 and the same stable
duplicate-email message on both endpoints, and the database is unchanged —
no account is created; a request carrying a fresh email succeeds on both
endpoints and appends exactly the new account. -/
theorem c7_duplicate_email_rejected_fresh_email_created
    (db : List Account) (new : Account) :
    ((findByEmail db new.email).isSome = true →
      create_user db new =
        (CreateOutcome.httpError 400 "Username already exists", db) ∧
      register db new =
        (CreateOutcome.httpError 400 "Username already exists", db)) ∧
    (findByEmail db new.email = none →
      create_user db new = (CreateOutcome.created new, db ++ [new]) ∧
      register db new = (CreateOutcome.created new, db ++ [new])) := by
  constructor
  · intro h
    match hh : findByEmail db new.email with
    | some a => simp [create_user, register, hh]
    | none => rw [hh] at h; simp at h
  · intro h
    simp [create_user, register, insertAccount, h]

/-- An account whose email collides with the demonstration database. -/
def dupAccount : Account :=
  { id := "9", email := "bob@example.com", password := "Other*1234" }

/-- An account whose email is fresh for the demonstration database. -/
def freshAccount : Account :=
  { id := "10", email := "dave@example.com", password := "Other*1234" }

/-- Witness for c7_duplicate_email_rejected_fresh_email_created at concrete
inputs: creating a second bob@example.com fails with the 400 duplicate
message on both endpoints and leaves the database unchanged; creating
dave@example.com succeeds on both endpoints. -/
theorem c7_duplicate_email_rejected_fresh_email_created_witness :
    create_user demoDb dupAccount =
      (CreateOutcome.httpError 400 "Username already exists", demoDb) ∧
    register demoDb dupAccount =
      (CreateOutcome.httpError 400 "Username already exists", demoDb) ∧
    create_user demoDb freshAccount =
      (CreateOutcome.created freshAccount, demoDb ++ [freshAccount]) ∧
    register demoDb freshAccount =
      (CreateOutcome.created freshAccount, demoDb ++ [freshAccount]) :=
  ⟨((c7_duplicate_email_rejected_fresh_email_created demoDb dupAccount).1 (by rfl)).1,
   ((c7_duplicate_email_rejected_fresh_email_created demoDb dupAccount).1 (by rfl)).2,
   ((c7_duplicate_email_rejected_fresh_email_created demoDb freshAccount).2 (by rfl)).1,
   ((c7_duplicate_email_rejected_fresh_email_created demoDb freshAccount).2 (by rfl)).2⟩

/-- The page computation of list_users (user_routes.py line 173): the Python
expression skip//limit+1, floor division over unbounded integers, undefined
— a ZeroDivisionError — when limit is zero. -/
def computePage (skip limit : Int) : Option Int :=
  if limit = 0 then none else some (Int.fdiv skip limit + 1)

/-- The UserListResponse schema (user_schemas.py lines 98-121): exactly the
fields items, total, page and size. -/
structure UserListResponse where
  items : List UserResponseObj
  total : Int
  page : Int
  size : Int
deriving DecidableEq, Repr

/-- Pydantic construction of a UserListResponse from the keyword arguments
that list_users passes (user_routes.py line 173): the model declares no
links field, and under the default extra policy an unknown keyword argument
is ignored, so the links argument is dropped and does not reach the value. -/
def mkUserListResponse (items : List UserResponseObj) (total page size : Int)
    (links : List (String × String)) : UserListResponse :=
  { items := items, total := total, page := page, size := size }

/-- Modelled from the spec: generate_pagination_links — the HATEOAS
navigation links for the listing; its source is not part of the repository
snapshot.  Its output is handed to the response constructor, which drops
it. -/
def generate_pagination_links (skip limit total : Int) :
    List (String × String) :=
  [("self", "/users/?skip=" ++ toString skip ++ "&limit=" ++ toString limit),
   ("first", "/users/?skip=0&limit=" ++ toString limit),
   ("last", "/users/?skip=" ++ toString (total - limit) ++ "&limit=" ++ toString limit)]

/-- Modelled from the spec: the persistence listing list(predicate, offset,
limit) backing UserService.list_users. -/
def listSlice (db : List Account) (skip limit : Int) : List Account :=
  (db.drop skip.toNat).take limit.toNat

/-- The attribute view of a stored account as handed to response
construction. -/
def accountToRaw (a : Account) : RawUser :=
  { id := a.id, email := a.email, role := a.role }

/-- Validation of every listed record through UserResponse.model_validate,
as the list comprehension in list_users performs; any failing record aborts
the response. -/
def validateAll : List RawUser → Option (List UserResponseObj)
  | [] => some []
  | u :: us =>
    match UserResponse.model_validate u, validateAll us with
    | Except.ok r, some rs => some (r :: rs)
    | _, _ => none

/-- The list_users endpoint (user_routes.py lines 162-173): count the
accounts, slice the listing, validate each record into a UserResponse,
compute the page as skip//limit+1 and construct the UserListResponse —
passing the pagination links, which the response model drops.  The division
by zero at limit = 0 means no response value can be produced there. -/
def list_users (db : List Account) (skip limit : Int) : Option UserListResponse :=
  match computePage skip limit,
        validateAll ((listSlice db skip limit).map accountToRaw) with
  | some page, some items =>
    some (mkUserListResponse items (Int.ofNat db.length) page
      (Int.ofNat items.length)
      (generate_pagination_links skip limit (Int.ofNat db.length)))
  | _, _ => none

/-- Claim C8: list_users is total only under the precondition that the limit
is nonzero: with limit = 0 the page computation skip//limit+1 divides by
zero and the endpoint produces no response, for every database and every
skip; for every limit greater than zero the computed page equals
skip//limit + 1 — Python floor division — and any produced response carries
exactly that page. -/
theorem c8_list_users_total_only_for_nonzero_limit
    (db : List Account) (skip limit : Int) :
    list_users db skip 0 = none ∧
    (0 < limit →
      computePage skip limit = some (Int.fdiv skip limit + 1) ∧
      ∀ r, list_users db skip limit = some r →
        r.page = Int.fdiv skip limit + 1) := by
  constructor
  · simp [list_users, computePage]
  · intro h
    have hne : limit ≠ 0 := h.ne.symm
    have hcp : computePage skip limit = some (Int.fdiv skip limit + 1) := by
      simp [computePage, hne]
    refine ⟨hcp, ?_⟩
    intro r hr
    unfold list_users at hr
    rw [hcp] at hr
    cases hv : validateAll ((listSlice db skip limit).map accountToRaw) <;>
      rw [hv] at hr
    · exact Option.noConfusion hr
    · simp at hr
      rw [← hr]
      rfl

/-- Witness for c8_list_users_total_only_for_nonzero_limit at concrete
inputs: over the demonstration database, skip 7 with limit 0 yields no
response, and for limit 3 the computed page is 7//3 + 1 = 3. -/
theorem c8_list_users_total_only_for_nonzero_limit_witness :
    list_users demoDb 7 0 = none ∧ computePage 7 3 = some 3 := by
  refine ⟨(c8_list_users_total_only_for_nonzero_limit demoDb 7 3).1, ?_⟩
  rw [((c8_list_users_total_only_for_nonzero_limit demoDb 7 3).2 (by decide)).1]
  decide

/-- Claim C10: a UserListResponse contains exactly the fields items, total,
page and size — every response value is determined by those four
projections — and the pagination links passed at construction are dropped:
the constructed value does not depend on the links argument, and each of the
four fields holds exactly the value that was passed for it. -/
theorem c10_pagination_links_dropped
    (items : List UserResponseObj) (total page size : Int)
    (links otherLinks : List (String × String)) (r : UserListResponse) :
    mkUserListResponse items total page size links =
      mkUserListResponse items total page size otherLinks ∧
    (mkUserListResponse items total page size links).items = items ∧
    (mkUserListResponse items total page size links).total = total ∧
    (mkUserListResponse items total page size links).page = page ∧
    (mkUserListResponse items total page size links).size = size ∧
    r = ⟨r.items, r.total, r.page, r.size⟩ := by
  exact ⟨rfl, rfl, rfl, rfl, rfl, rfl⟩
